import Mathlib

/-!
Verification of the makerspace IoT device fleet: a shallow embedding of the
repository's two cores — the BitNet MQTT responder (`src/bitnet_runner.py`)
and the device enrollment clients
(`enhanced_device_client_with_app_deployment.py`, `example_device_client.py`)
— together with proofs about the response policy, the bounded message
history, the response dispatcher and the enrollment protocol.
-/

namespace Makerspace

/-! ## Data model: MQTT messages (bitnet_runner.py, class MqttMessage) -/

/-- Embedding of `MqttMessage`: id (a uuid string), originating device,
content, message type and timestamp. -/
structure MqttMessage where
  id : String
  device_id : String
  content : String
  message_type : String
  timestamp : Nat
deriving DecidableEq

/-! ## Response policy (bitnet_runner.py, MqttBitNetService._should_respond)

The `response_criteria` dictionary with the defaults `_should_respond`
supplies via `.get`: allowed `message_types` default `["general"]`,
`content_filters` default `[]`, `probability` default `1.0`,
`default_respond` default `True`. Floats are embedded as rationals; the
single `random.random()` draw is passed in explicitly, which also makes the
function a pure deterministic map of its arguments. -/

/-- Configuration consumed by `_should_respond`, with the source's
`.get(key, default)` fallbacks as field defaults. -/
structure ResponseCriteria where
  message_types : List String := ["general"]
  content_filters : List String := []
  probability : Rat := 1
  default_respond : Bool := true
deriving DecidableEq

/-- Python `s.lower()` followed by use as a character sequence: lower-cased
character list of a string (substring tests are done on these). -/
def lowerChars (s : String) : List Char :=
  s.toList.map Char.toLower

/-- Python `needle in hay` on sequences: `needle` occurs contiguously in
`hay`. -/
def containsSubstr (needle : List Char) : List Char → Bool
  | [] => needle.isEmpty
  | c :: rest => needle.isPrefixOf (c :: rest) || containsSubstr needle rest

/-- Python `filter_item.lower() in message.content.lower()`: case-insensitive
substring test. -/
def filterMatches (filter_item content : String) : Bool :=
  containsSubstr (lowerChars filter_item) (lowerChars content)

/-- Embedding of `MqttBitNetService._should_respond`.  The branch structure
mirrors the source line by line: self-check, type filter, content filters
(first match returns `true`), probability gate (only consulted when
`probability < 1.0`, and only ever rejecting), then the `default_respond`
fallback. -/
def should_respond (selfId : String) (crit : ResponseCriteria) (draw : Rat)
    (msg : MqttMessage) : Bool :=
  if msg.device_id = selfId then false
  else if msg.message_type ∉ crit.message_types then false
  else if crit.content_filters.any (fun f => filterMatches f msg.content) then true
  else if crit.probability < 1 then
    if draw > crit.probability then false
    else crit.default_respond
  else crit.default_respond

/-! ## History ring (bitnet_runner.py, MqttBitNetService.on_mqtt_message)

`on_mqtt_message` appends every decoded message to `self.message_history`
and then pops index 0 when the length exceeds 100.  `appendBounded` is that
update parametrised by the capacity; the source instantiates it at 100. -/

/-- One history update with capacity `cap`: append, then pop the front when
the length exceeds `cap` (`history.append(m); if len > cap: pop(0)`). -/
def appendBounded (cap : Nat) (hist : List MqttMessage) (m : MqttMessage) :
    List MqttMessage :=
  if (hist ++ [m]).length > cap then (hist ++ [m]).drop 1 else hist ++ [m]

/-- The capacity hard-wired in `on_mqtt_message` (`len(...) > 100`). -/
def historyCapacity : Nat := 100

/-- The history update exactly as the source performs it. -/
def on_message_append (hist : List MqttMessage) (m : MqttMessage) :
    List MqttMessage :=
  appendBounded historyCapacity hist m

/-- The last `n` entries of a list (Python `l[-n:]` for `n ≥ 1`). -/
def lastN {α : Type} (n : Nat) (l : List α) : List α :=
  l.drop (l.length - n)

/-! ### History ring lemmas -/

theorem lastN_of_le {α : Type} (n : Nat) (l : List α) (h : l.length ≤ n) :
    lastN n l = l := by
  unfold lastN
  have : l.length - n = 0 := by omega
  simp [this]

theorem length_lastN_le {α : Type} (n : Nat) (l : List α) :
    (lastN n l).length ≤ n := by
  unfold lastN
  simp only [List.length_drop]
  omega

theorem appendBounded_eq_lastN (cap : Nat) (hist : List MqttMessage)
    (m : MqttMessage) (h : hist.length ≤ cap) :
    appendBounded cap hist m = lastN cap (hist ++ [m]) := by
  have hlen : (hist ++ [m]).length = hist.length + 1 := by simp
  unfold appendBounded lastN
  rw [hlen]
  split
  · rename_i hgt
    have heq : hist.length + 1 - cap = 1 := by omega
    rw [heq]
  · rename_i hle
    have heq : hist.length + 1 - cap = 0 := by omega
    rw [heq]
    rfl

theorem length_appendBounded_le (cap : Nat) (hist : List MqttMessage)
    (m : MqttMessage) (h : hist.length ≤ cap) :
    (appendBounded cap hist m).length ≤ cap := by
  rw [appendBounded_eq_lastN cap hist m h]
  exact length_lastN_le cap _

theorem lastN_append_left {α : Type} (n : Nat) (a b : List α)
    (h : n ≤ b.length) : lastN n (a ++ b) = lastN n b := by
  unfold lastN
  have h1 : (a ++ b).length - n = a.length + (b.length - n) := by
    simp only [List.length_append]; omega
  rw [h1, ← List.drop_drop]
  congr 1
  exact List.drop_left a b

theorem lastN_lastN_append {α : Type} (n : Nat) (l ms : List α) :
    lastN n (lastN n l ++ ms) = lastN n (l ++ ms) := by
  by_cases h : l.length ≤ n
  · rw [lastN_of_le n l h]
  · unfold lastN
    have hdl : (l.drop (l.length - n)).length = n := by
      simp only [List.length_drop]; omega
    have h1 : (l.drop (l.length - n) ++ ms).length - n = ms.length := by
      simp only [List.length_append, hdl]; omega
    have h2 : (l ++ ms).length - n = (l.length - n) + ms.length := by
      simp only [List.length_append]; omega
    rw [h1, h2, ← List.drop_drop]
    congr 1
    exact (List.drop_append_of_le_length (by omega)).symm

theorem foldl_appendBounded_aux (cap : Nat) :
    ∀ (ms hist : List MqttMessage), hist.length ≤ cap →
      List.foldl (appendBounded cap) hist ms = lastN cap (hist ++ ms) := by
  intro ms
  induction ms with
  | nil =>
      intro hist h
      simp only [List.foldl_nil, List.append_nil]
      exact (lastN_of_le cap hist h).symm
  | cons m ms ih =>
      intro hist h
      simp only [List.foldl_cons]
      rw [ih (appendBounded cap hist m) (length_appendBounded_le cap hist m h)]
      rw [appendBounded_eq_lastN cap hist m h]
      rw [lastN_lastN_append]
      simp

/-! ## BitNet inference and response dispatch (bitnet_runner.py)

`BitNetInference.generate_response` shells out to the inference script with
`subprocess.run(..., timeout=300)`.  The embedding abstracts one such call
as a `GenEnv`: whether `validate_setup` passes, how many seconds the
subprocess would run, and its outcome (`none` models a raised exception,
`some (rc, stdout)` a completed process). -/

/-- One external generation call as the service observes it. -/
structure GenEnv where
  setupOk : Bool
  duration : Nat
  result : Option (Nat × String)
deriving DecidableEq

/-- The `timeout=300` seconds handed to `subprocess.run` in
`generate_response`. -/
def inferenceTimeout : Nat := 300

/-- Embedding of `BitNetInference.generate_response`: `none` when setup
validation fails, when the subprocess exceeds the timeout
(`subprocess.TimeoutExpired`), when the call raises, or when the exit code
is non-zero; otherwise the stripped standard output. -/
def generate_response (g : GenEnv) : Option String :=
  if !g.setupOk then none
  else if g.duration > inferenceTimeout then none
  else match g.result with
    | none => none
    | some (rc, out) => if rc = 0 then some out.trim else none

/-- Service configuration consumed by the dispatcher, with the source's
`.get` fallbacks as defaults (`response_delay` default 2.0 seconds; a
missing `prompt_template` falls back to the built-in template). -/
structure ServiceCfg where
  response_delay : Rat := 2
  prompt_template : Option (String → String → String → String) := none

/-- An ASCII single quote, kept out of the surrounding string literals. -/
def squote : String := String.singleton (Char.ofNat 39)

/-- The built-in prompt template of `_generate_prompt`, as a function of the
sender id, the content and the context summary. -/
def defaultPromptTemplate (dev content ctx : String) : String :=
  "You are a helpful AI assistant in an IoT network. Device " ++ dev
    ++ " said: " ++ squote ++ content ++ squote ++ ". Recent context: " ++ ctx
    ++ ". Provide a helpful, concise response."

/-- The context summary of `_generate_prompt`: empty for an empty context,
otherwise the sender/content pairs of the last three context messages
(`context[-3:]`) joined with the fixed delimiter. -/
def format_context (context : List MqttMessage) : String :=
  match context with
  | [] => ""
  | _ :: _ =>
      String.intercalate " | "
        ((lastN 3 context).map (fun m => m.device_id ++ ": " ++ m.content))

/-- Embedding of `MqttBitNetService._generate_prompt`. -/
def generate_prompt (cfg : ServiceCfg) (msg : MqttMessage)
    (context : List MqttMessage) : String :=
  (cfg.prompt_template.getD defaultPromptTemplate)
    msg.device_id msg.content (format_context context)

/-- Observable actions of one dispatch worker, in order. -/
inductive Event where
  | sleep (seconds : Rat)
  | publish (m : MqttMessage)
deriving DecidableEq

/-- Embedding of the `response_worker` closure in
`MqttBitNetService._handle_response`: builds the prompt from the history
minus its last entry (`self.message_history[:-1]`), runs the generation,
and — only when the generated content is truthy — sleeps the configured
anti-flood delay and publishes exactly one `response`-typed message.
`freshId`/`now` stand for the fresh uuid and current time of the response
message. -/
def responseWorker (selfId freshId : String) (now : Nat) (cfg : ServiceCfg)
    (hist : List MqttMessage) (msg : MqttMessage) (g : GenEnv) :
    String × List Event :=
  let prompt := generate_prompt cfg msg hist.dropLast
  match generate_response g with
  | some s =>
      if s = "" then (prompt, [])
      else
        (prompt,
          [Event.sleep cfg.response_delay,
           Event.publish
             { id := freshId, device_id := selfId, content := s,
               message_type := "response", timestamp := now }])
  | none => (prompt, [])

/-! ### Dispatcher lemmas -/

theorem generate_response_none_of_timeout (g : GenEnv)
    (h : g.duration > inferenceTimeout) : generate_response g = none := by
  unfold generate_response
  cases g.setupOk <;> simp [h]

theorem responseWorker_events_of_gen_none (selfId freshId : String) (now : Nat)
    (cfg : ServiceCfg) (hist : List MqttMessage) (msg : MqttMessage)
    (g : GenEnv) (h : generate_response g = none) :
    (responseWorker selfId freshId now cfg hist msg g).2 = [] := by
  unfold responseWorker
  rw [h]

/-! ## Concrete fixtures used by witnesses and counterexamples -/

/-- A message from another device, type `general`, content matching no
filter. -/
def msgOther : MqttMessage :=
  { id := "m2", device_id := "sensor-7", content := "reading nominal",
    message_type := "general", timestamp := 0 }

/-- A message whose content contains the keyword `help` in upper case. -/
def msgHelp : MqttMessage :=
  { id := "m1", device_id := "pi-zero", content := "I need HELP with the printer",
    message_type := "general", timestamp := 0 }

/-- Criteria with probability 0 and default-respond off, but a `help` content
filter. -/
def critZeroProb : ResponseCriteria :=
  { message_types := ["general"], content_filters := ["help"],
    probability := 0, default_respond := false }

/-- Criteria with probability one half and default-respond off. -/
def critHalf : ResponseCriteria :=
  { message_types := ["general"], content_filters := [],
    probability := 1/2, default_respond := false }

/-- The default response criteria (`.get` fallbacks of `_should_respond`). -/
def critDefault : ResponseCriteria := {}

/-! ## Claim theorems: response policy -/

/-- Claim C3: for every inbound message whose sender differs from the own
device id and whose type is in the allowed-type set, a configured content
filter matching the content case-insensitively forces `_should_respond` to
return `true`, for every configured probability (including 0) and
default-respond flag. -/
theorem respond_filter_short_circuits (selfId : String) (crit : ResponseCriteria)
    (draw : Rat) (msg : MqttMessage)
    (hself : msg.device_id ≠ selfId)
    (htype : msg.message_type ∈ crit.message_types)
    (hfilter : crit.content_filters.any (fun f => filterMatches f msg.content) = true) :
    should_respond selfId crit draw msg = true := by
  unfold should_respond
  rw [if_neg hself, if_neg (not_not_intro htype), if_pos hfilter]

/-- Claim C3 witness: a `general` message containing "HELP" from another
device is accepted even with probability 0 and default-respond false. -/
theorem respond_filter_short_circuits_witness :
    should_respond "bitnet-host-aa00bb" critZeroProb 1 msgHelp = true :=
  respond_filter_short_circuits "bitnet-host-aa00bb" critZeroProb 1 msgHelp
    (by decide) (by decide) (by decide)

/-- Claim C4 counterexample: with probability one half, a draw of 3/10 wins
the draw (3/10 ≤ 1/2), yet `_should_respond` rejects the message because
`default_respond` is `false` — the probability draw never accepts by
itself. -/
theorem respond_draw_win_rejected :
    ((3 : Rat)/10 ≤ critHalf.probability)
      ∧ should_respond "bitnet-host-aa00bb" critHalf ((3 : Rat)/10) msgOther = false := by
  constructor
  · show (3 : Rat)/10 ≤ 1/2
    norm_num
  · unfold should_respond
    rw [if_neg (by decide), if_neg (by decide), if_neg (by decide),
      if_pos (show critHalf.probability < 1 by norm_num [critHalf]),
      if_neg (show ¬((3 : Rat)/10 > critHalf.probability) by norm_num [critHalf])]
    rfl

/-- Claim C4 (amended): past the self-check, type filter and content filters,
the probability gate only ever rejects — when `probability < 1.0` and the
uniform draw exceeds it the message is rejected; in every other case
(winning the draw, or `probability ≥ 1.0`) the outcome is exactly the
configured default-respond flag. -/
theorem respond_probability_gate (selfId : String) (crit : ResponseCriteria)
    (draw : Rat) (msg : MqttMessage)
    (hself : msg.device_id ≠ selfId)
    (htype : msg.message_type ∈ crit.message_types)
    (hfilter : crit.content_filters.any (fun f => filterMatches f msg.content) = false) :
    (crit.probability < 1 → draw > crit.probability →
        should_respond selfId crit draw msg = false)
  ∧ (crit.probability < 1 → draw ≤ crit.probability →
        should_respond selfId crit draw msg = crit.default_respond)
  ∧ (1 ≤ crit.probability →
        should_respond selfId crit draw msg = crit.default_respond) := by
  unfold should_respond
  rw [if_neg hself, if_neg (not_not_intro htype), if_neg (by simp [hfilter])]
  refine ⟨?_, ?_, ?_⟩
  · intro hp hd
    rw [if_pos hp, if_pos hd]
  · intro hp hd
    rw [if_pos hp, if_neg (not_lt.mpr hd)]
  · intro hp
    rw [if_neg (not_lt.mpr hp)]

/-- Claim C4 witness: with the default criteria (probability 1.0,
default-respond true) an ordinary message is accepted. -/
theorem respond_probability_gate_witness :
    should_respond "bitnet-host-aa00bb" critDefault 0 msgOther
      = critDefault.default_respond :=
  (respond_probability_gate "bitnet-host-aa00bb" critDefault 0 msgOther
    (by decide) (by decide) (by decide)).2.2 (by norm_num [critDefault])

/-- Claim C5: `_should_respond` rejects every message whose sender equals the
own device id, for every configuration and draw; and it is a deterministic
function of its inputs — equal draws give equal outcomes. -/
theorem respond_rejects_self_and_deterministic :
    (∀ (selfId : String) (crit : ResponseCriteria) (draw : Rat) (msg : MqttMessage),
        msg.device_id = selfId → should_respond selfId crit draw msg = false)
  ∧ (∀ (selfId : String) (crit : ResponseCriteria) (d1 d2 : Rat) (msg : MqttMessage),
        d1 = d2 →
        should_respond selfId crit d1 msg = should_respond selfId crit d2 msg) := by
  constructor
  · intro selfId crit draw msg h
    unfold should_respond
    rw [if_pos h]
  · intro selfId crit d1 d2 msg h
    rw [h]

/-! ## Claim theorems: history ring -/

/-- Fixture messages for the ring witness. -/
def msgRingA : MqttMessage :=
  { id := "ra", device_id := "d1", content := "one", message_type := "general",
    timestamp := 0 }

/-- Second fixture message for the ring witness. -/
def msgRingB : MqttMessage :=
  { id := "rb", device_id := "d2", content := "two", message_type := "general",
    timestamp := 1 }

/-- Third fixture message for the ring witness. -/
def msgRingC : MqttMessage :=
  { id := "rc", device_id := "d3", content := "three", message_type := "general",
    timestamp := 2 }

/-- Claim C6: appending N+1 messages to an empty ring of capacity N leaves
exactly the most recent N in insertion order; one update never grows the
ring past N; an append at capacity N ≥ 1 evicts exactly the oldest entry;
and the source instantiates the capacity at 100. -/
theorem history_ring_fifo (N : Nat) (ms hist : List MqttMessage)
    (m : MqttMessage)
    (hms : ms.length = N + 1) (hhist : hist.length = N) (hN : 0 < N) :
    List.foldl (appendBounded N) [] ms = ms.drop 1
  ∧ (appendBounded N hist m).length ≤ N
  ∧ appendBounded N hist m = hist.drop 1 ++ [m]
  ∧ historyCapacity = 100
  ∧ on_message_append = appendBounded 100 := by
  refine ⟨?_, ?_, ?_, rfl, rfl⟩
  · rw [foldl_appendBounded_aux N ms [] (by simp)]
    unfold lastN
    rw [List.nil_append, hms]
    congr 1
    omega
  · exact length_appendBounded_le N hist m (le_of_eq hhist)
  · unfold appendBounded
    rw [if_pos (by
      simp only [List.length_append, List.length_cons, List.length_nil, hhist]
      omega)]
    exact List.drop_append_of_le_length (by omega)

/-! ## Claim theorems: response dispatcher -/

/-- Claim C2: the external generation call is bounded by the fixed 300 s
(five minute) subprocess timeout; a dispatch whose generation times out,
raises, exits non-zero, or yields empty (stripped) output publishes
nothing; a dispatch whose generation succeeds within the timeout with
non-empty output first sleeps the configured anti-flood delay (default 2.0
seconds) and then publishes exactly one `response`-typed message. -/
theorem dispatch_bounded_and_publishes_once (selfId freshId : String)
    (now : Nat) (cfg : ServiceCfg) (hist : List MqttMessage)
    (msg : MqttMessage) (g : GenEnv) :
    inferenceTimeout = 5 * 60
  ∧ (g.duration > inferenceTimeout →
      (responseWorker selfId freshId now cfg hist msg g).2 = [])
  ∧ (g.result = none →
      (responseWorker selfId freshId now cfg hist msg g).2 = [])
  ∧ (∀ rc out, g.result = some (rc, out) → rc ≠ 0 →
      (responseWorker selfId freshId now cfg hist msg g).2 = [])
  ∧ (∀ out, g.result = some (0, out) → out.trim = "" →
      (responseWorker selfId freshId now cfg hist msg g).2 = [])
  ∧ (∀ out, g.setupOk = true → g.duration ≤ inferenceTimeout →
      g.result = some (0, out) → out.trim ≠ "" →
      (responseWorker selfId freshId now cfg hist msg g).2
        = [Event.sleep cfg.response_delay,
           Event.publish
             { id := freshId, device_id := selfId, content := out.trim,
               message_type := "response", timestamp := now }])
  ∧ ({ } : ServiceCfg).response_delay = 2 := by
  refine ⟨rfl, ?_, ?_, ?_, ?_, ?_, rfl⟩
  · intro h
    exact responseWorker_events_of_gen_none _ _ _ _ _ _ _
      (generate_response_none_of_timeout g h)
  · intro h
    refine responseWorker_events_of_gen_none _ _ _ _ _ _ _ ?_
    unfold generate_response
    rw [h]
    cases g.setupOk <;> simp
  · intro rc out h hrc
    refine responseWorker_events_of_gen_none _ _ _ _ _ _ _ ?_
    unfold generate_response
    rw [h]
    cases g.setupOk <;> simp [hrc]
  · intro out h htrim
    have hgen : generate_response g = none ∨ generate_response g = some "" := by
      unfold generate_response
      rw [h]
      cases g.setupOk
      · left; rfl
      · by_cases hdur : inferenceTimeout < g.duration
        · left; simp [hdur]
        · right; simp [hdur, htrim]
    rcases hgen with hg | hg
    · exact responseWorker_events_of_gen_none _ _ _ _ _ _ _ hg
    · unfold responseWorker
      rw [hg]
      rfl
  · intro out hsetup hdur h htrim
    have hgen : generate_response g = some out.trim := by
      unfold generate_response
      rw [h, hsetup]
      simp [Nat.not_lt.mpr hdur]
    unfold responseWorker
    rw [hgen]
    simp [htrim]

/-- Claim C10: the dispatcher builds the prompt from the history minus its
last entry; the context summary joins sender and content of at most the
three most recent of those earlier messages with the delimiter " | "; and
the triggering message (the history's last entry, with a unique id) never
appears among the summarised messages. -/
theorem prompt_context_excludes_trigger (selfId freshId : String) (now : Nat)
    (cfg : ServiceCfg) (hist : List MqttMessage) (msg : MqttMessage)
    (g : GenEnv)
    (hlast : hist.getLast? = some msg)
    (hunique : ∀ m ∈ hist.dropLast, m.id ≠ msg.id) :
    (responseWorker selfId freshId now cfg hist msg g).1
        = generate_prompt cfg msg hist.dropLast
  ∧ (hist.dropLast ≠ [] →
      format_context hist.dropLast
        = String.intercalate " | "
            ((lastN 3 hist.dropLast).map
              (fun m => m.device_id ++ ": " ++ m.content)))
  ∧ (lastN 3 hist.dropLast).length ≤ 3
  ∧ (∀ m ∈ lastN 3 hist.dropLast, m.id ≠ msg.id) := by
  refine ⟨?_, ?_, length_lastN_le 3 _, ?_⟩
  · unfold responseWorker
    cases generate_response g with
    | none => rfl
    | some s =>
        by_cases hs : s = "" <;> simp [hs]
  · intro hne
    unfold format_context
    cases hd : hist.dropLast with
    | nil => exact absurd hd hne
    | cons a l => rfl
  · intro m hm
    exact hunique m (List.drop_subset _ _ hm)

/-- Claim C10 witness: a two-entry history whose last entry is the
triggering message. -/
theorem prompt_context_excludes_trigger_witness :
    (responseWorker "bitnet-host-aa00bb" "resp-1" 7 { } [msgRingA, msgRingB]
          msgRingB ⟨true, 0, some (0, "ok")⟩).1
        = generate_prompt { } msgRingB [msgRingA, msgRingB].dropLast
  ∧ ([msgRingA, msgRingB].dropLast ≠ [] →
      format_context [msgRingA, msgRingB].dropLast
        = String.intercalate " | "
            ((lastN 3 [msgRingA, msgRingB].dropLast).map
              (fun m => m.device_id ++ ": " ++ m.content)))
  ∧ (lastN 3 [msgRingA, msgRingB].dropLast).length ≤ 3
  ∧ (∀ m ∈ lastN 3 [msgRingA, msgRingB].dropLast, m.id ≠ msgRingB.id) :=
  prompt_context_excludes_trigger "bitnet-host-aa00bb" "resp-1" 7 { }
    [msgRingA, msgRingB] msgRingB ⟨true, 0, some (0, "ok")⟩
    (by decide) (by decide)

/-- Claim C6 witness: capacity 2, three appended messages, a full ring of
two. -/
theorem history_ring_fifo_witness :
    List.foldl (appendBounded 2) [] [msgRingA, msgRingB, msgRingC]
        = [msgRingA, msgRingB, msgRingC].drop 1
  ∧ (appendBounded 2 [msgRingA, msgRingB] msgRingC).length ≤ 2
  ∧ appendBounded 2 [msgRingA, msgRingB] msgRingC
        = [msgRingA, msgRingB].drop 1 ++ [msgRingC]
  ∧ historyCapacity = 100
  ∧ on_message_append = appendBounded 100 :=
  history_ring_fifo 2 [msgRingA, msgRingB, msgRingC] [msgRingA, msgRingB]
    msgRingC rfl rfl (by decide)

/-! ## Device enrollment (enhanced_device_client_with_app_deployment.py)

`EnhancedMakerspaceIoTDevice.register_device` first tries the cached fast
path (`_certificates_exist` + `_load_existing_registration`), then POSTs to
`{issuer}/register-device` and handles 200 / 409 / other status / transport
error.  The embedding threads the certificate directory explicitly and
records every network request issued. -/

/-- Python `next(p for p in d if p[0] == k, ("", ""))[1]`-style dictionary
access: the value stored under `k`, or `""`. -/
def dictGet (d : List (String × String)) (k : String) : String :=
  (((d.find? (fun p => p.1 == k)).map (fun p => p.2)).getD "")

/-- Embedding of the `RegistrationResponse` dataclass; `registration` and
`certificate` are the JSON dictionaries of the service response. -/
structure RegistrationResponse where
  success : Bool
  deviceId : String
  registration : List (String × String)
  certificate : List (String × String)
deriving DecidableEq

/-- The `certificate_pem` property: `certificate.get('certificate', '')`. -/
def RegistrationResponse.certificate_pem (r : RegistrationResponse) : String :=
  dictGet r.certificate "certificate"

/-- The `private_key_pem` property: `certificate.get('privateKey', '')`. -/
def RegistrationResponse.private_key_pem (r : RegistrationResponse) : String :=
  dictGet r.certificate "privateKey"

/-- The certificate directory as the client leaves it: contents of
`device.crt`, `device.key`, `ca.crt` and the parsed `registration.json`
sidecar (`none` = file absent, or, for the sidecar, unparseable), plus the
access modes set by `os.chmod`. -/
structure CertDir where
  certFile : Option String := none
  keyFile : Option String := none
  caFile : Option String := none
  regFile : Option RegistrationResponse := none
  certMode : Option Nat := none
  keyMode : Option Nat := none
  caMode : Option Nat := none
deriving DecidableEq

/-- The network requests an enrollment run can issue. -/
inductive Req where
  | registerPost
  | caGet
  | statusGet
deriving DecidableEq

/-- Enrollment failures; each is a raised `Exception` in the source. -/
inductive EnrollError where
  | alreadyRegisteredUnrecoverable
  | enrollmentFailed (code : Nat)
  | networkError
deriving DecidableEq

/-- The issuer as one enrollment run of the enhanced client observes it:
the response to the registration POST (`none` = `requests.RequestException`)
and the response to the CA-certificate GET. -/
structure IssuerEnv where
  postResp : Option (Nat × RegistrationResponse)
  caResp : Nat × String
deriving DecidableEq

/-- `EnhancedMakerspaceIoTDevice._certificates_exist`: all three certificate
files present. -/
def certificates_exist (fs : CertDir) : Bool :=
  fs.certFile.isSome && fs.keyFile.isSome && fs.caFile.isSome

/-- `EnhancedMakerspaceIoTDevice._fetch_ca_certificate`: the body on HTTP
200, otherwise the empty string. -/
def fetch_ca_certificate (env : IssuerEnv) : String :=
  if env.caResp.1 = 200 then env.caResp.2 else ""

/-- `EnhancedMakerspaceIoTDevice._save_certificates`: writes `device.crt`
and `device.key`, writes `ca.crt` only when a CA PEM is available, then
`os.chmod`s the key to `0o600`, the certificate to `0o644`, and `ca.crt`
(when present) to `0o644`. -/
def save_certificates (r : RegistrationResponse) (caPem : String)
    (fs : CertDir) : CertDir :=
  let fs1 := { fs with certFile := some r.certificate_pem,
                       keyFile := some r.private_key_pem }
  let fs2 := if caPem ≠ "" then { fs1 with caFile := some caPem } else fs1
  let fs3 := { fs2 with keyMode := some 0o600, certMode := some 0o644 }
  if fs3.caFile.isSome then { fs3 with caMode := some 0o644 } else fs3

/-- `EnhancedMakerspaceIoTDevice._save_registration_data`: writes the
`registration.json` sidecar. -/
def save_registration_data (r : RegistrationResponse) (fs : CertDir) :
    CertDir :=
  { fs with regFile := some r }

/-- The network path of `register_device` (reached when the cached fast
path does not return): the registration POST and its 200 / 409 / other /
transport-error handling. -/
def register_network (env : IssuerEnv) (fs : CertDir) :
    Except EnrollError RegistrationResponse × CertDir × List Req :=
  match env.postResp with
  | none => (Except.error EnrollError.networkError, fs, [Req.registerPost])
  | some (code, data) =>
      if code = 200 then
        let caPem := fetch_ca_certificate env
        let fs1 := save_registration_data data (save_certificates data caPem fs)
        (Except.ok data, fs1, [Req.registerPost, Req.caGet])
      else if code = 409 then
        match fs.regFile with
        | some r => (Except.ok r, fs, [Req.registerPost])
        | none =>
            (Except.error EnrollError.alreadyRegisteredUnrecoverable, fs,
             [Req.registerPost])
      else
        (Except.error (EnrollError.enrollmentFailed code), fs,
         [Req.registerPost])

/-- Embedding of `EnhancedMakerspaceIoTDevice.register_device`: the cached
fast path (certificate files present and a loadable `registration.json`)
returns without network traffic; otherwise the network path runs. -/
def register_device (env : IssuerEnv) (fs : CertDir) :
    Except EnrollError RegistrationResponse × CertDir × List Req :=
  if certificates_exist fs then
    match fs.regFile with
    | some r => (Except.ok r, fs, [])
    | none => register_network env fs
  else register_network env fs

/-! ## Device enrollment, example client (example_device_client.py) -/

/-- The issuer as one run of the example client observes it: registration
POST, status GET and CA-certificate GET (`none` = transport error).  The
example client parses responses as plain JSON dictionaries. -/
structure ExIssuerEnv where
  postResp : Option (Nat × List (String × String))
  statusResp : Option (Nat × List (String × String))
  caResp : Option (Nat × String)
deriving DecidableEq

/-- `MakerspaceIoTDevice.get_device_status`: 404 raises "Device not
registered", any other non-200 raises, 200 returns the record. -/
def get_device_status (env : ExIssuerEnv) :
    Except String (List (String × String)) :=
  match env.statusResp with
  | none => Except.error "status request failed"
  | some (code, record) =>
      if code = 404 then Except.error "Device not registered"
      else if code ≠ 200 then Except.error "Status check failed"
      else Except.ok record

/-- `MakerspaceIoTDevice.get_ca_certificate`: non-200 (or a transport
error) raises. -/
def get_ca_certificate (env : ExIssuerEnv) : Except String String :=
  match env.caResp with
  | none => Except.error "CA certificate download failed"
  | some (code, text) =>
      if code ≠ 200 then Except.error "CA certificate download failed"
      else Except.ok text

/-- Embedding of `MakerspaceIoTDevice.register_device`: on 409 it returns
`get_device_status()` (issuing the status GET, writing nothing); on any
other non-200 it raises; on 200 `_save_certificates` writes the device
certificate and key, fetches the CA certificate (raising after those two
writes if that fails) and writes it.  The result lists the files written as
(name, contents) pairs and the requests issued. -/
def ex_register_device (env : ExIssuerEnv) :
    Except String (List (String × String)) × List (String × String) × List Req :=
  match env.postResp with
  | none => (Except.error "Network error", [], [Req.registerPost])
  | some (code, data) =>
      if code = 409 then
        (get_device_status env, [], [Req.registerPost, Req.statusGet])
      else if code ≠ 200 then
        (Except.error "Registration failed", [], [Req.registerPost])
      else
        match get_ca_certificate env with
        | Except.error e =>
            (Except.error e,
             [("device_cert.pem", dictGet data "certificate"),
              ("device_key.pem", dictGet data "privateKey")],
             [Req.registerPost, Req.caGet])
        | Except.ok caText =>
            (Except.ok data,
             [("device_cert.pem", dictGet data "certificate"),
              ("device_key.pem", dictGet data "privateKey"),
              ("ca_cert.pem", caText)],
             [Req.registerPost, Req.caGet])

/-! ### Enrollment lemmas -/

theorem register_device_no_cache (env : IssuerEnv) (fs : CertDir)
    (hfs : certificates_exist fs = false) :
    register_device env fs = register_network env fs := by
  unfold register_device
  rw [hfs]
  rfl

theorem register_device_cached (env : IssuerEnv) (fs : CertDir)
    (r : RegistrationResponse) (hfs : certificates_exist fs = true)
    (hreg : fs.regFile = some r) :
    register_device env fs = (Except.ok r, fs, []) := by
  unfold register_device
  rw [hfs, hreg]
  rfl

theorem register_network_200 (env : IssuerEnv) (fs : CertDir)
    (d : RegistrationResponse) (hpost : env.postResp = some (200, d)) :
    register_network env fs
      = (Except.ok d,
         save_registration_data d
           (save_certificates d (fetch_ca_certificate env) fs),
         [Req.registerPost, Req.caGet]) := by
  unfold register_network
  rw [hpost]
  rfl

theorem register_device_200_run (env : IssuerEnv) (fs : CertDir)
    (d : RegistrationResponse) (ca : String)
    (hpost : env.postResp = some (200, d))
    (hca : env.caResp = (200, ca))
    (hfs : certificates_exist fs = false) :
    register_device env fs
      = (Except.ok d, save_registration_data d (save_certificates d ca fs),
         [Req.registerPost, Req.caGet]) := by
  have hfetch : fetch_ca_certificate env = ca := by
    unfold fetch_ca_certificate
    rw [hca]
    rfl
  rw [register_device_no_cache env fs hfs, register_network_200 env fs d hpost,
    hfetch]

theorem save_certificates_fields (r : RegistrationResponse) (ca : String)
    (fs : CertDir) (h : ca ≠ "") :
    (save_certificates r ca fs).certFile = some r.certificate_pem
  ∧ (save_certificates r ca fs).keyFile = some r.private_key_pem
  ∧ (save_certificates r ca fs).caFile = some ca
  ∧ (save_certificates r ca fs).keyMode = some 0o600 := by
  simp [save_certificates, h]

theorem save_certificates_keyMode (r : RegistrationResponse) (ca : String)
    (fs : CertDir) : (save_certificates r ca fs).keyMode = some 0o600 := by
  unfold save_certificates
  dsimp only
  split <;> first | rfl | (split <;> rfl)

theorem register_network_409 (env : IssuerEnv) (fs : CertDir)
    (d : RegistrationResponse) (hpost : env.postResp = some (409, d)) :
    register_network env fs
      = (match fs.regFile with
         | some r => (Except.ok r, fs, [Req.registerPost])
         | none =>
             (Except.error EnrollError.alreadyRegisteredUnrecoverable, fs,
              [Req.registerPost])) := by
  unfold register_network
  rw [hpost]
  rfl

/-! ## Enrollment fixtures -/

/-- A full registration response body for device `printer-01`. -/
def regRespA : RegistrationResponse :=
  { success := true, deviceId := "printer-01",
    registration := [("authenticationName", "printer-01-authnID"),
                     ("clientName", "printer-01-client")],
    certificate := [("certificate", "PEM-CERT"), ("privateKey", "PEM-KEY"),
                    ("publicKey", "PEM-PUB")] }

/-- Issuer answering the registration POST with 200 and the CA GET with a
PEM body. -/
def envRegOk : IssuerEnv :=
  { postResp := some (200, regRespA), caResp := (200, "PEM-CA") }

/-- Issuer answering the registration POST with 409. -/
def envConflict : IssuerEnv :=
  { postResp := some (409, regRespA), caResp := (200, "PEM-CA") }

/-- An empty certificate directory. -/
def emptyDir : CertDir := {}

/-- A directory holding only the registration sidecar, no certificate
files. -/
def sidecarOnlyDir : CertDir := { regFile := some regRespA }

/-! ## Claim theorems: enrollment -/

/-- Claim C1 counterexample: starting from an empty credential store with
the issuer answering 200, two consecutive `register_device` calls perform
two network requests in total (the registration POST and the CA-certificate
GET, both in the first call), not at most one — though both calls do return
the identical credential. -/
theorem enroll_two_network_calls :
    (register_device envRegOk emptyDir).2.2.length
        + (register_device envRegOk
            (register_device envRegOk emptyDir).2.1).2.2.length = 2
  ∧ ¬((register_device envRegOk emptyDir).2.2.length
        + (register_device envRegOk
            (register_device envRegOk emptyDir).2.1).2.2.length ≤ 1)
  ∧ (register_device envRegOk emptyDir).1
      = (register_device envRegOk
          (register_device envRegOk emptyDir).2.1).1 :=
  ⟨rfl, by decide, rfl⟩

/-- Claim C1 (amended): with no cached credential and the issuer answering
200 with a non-empty CA body, the first `register_device` call performs
exactly the registration POST plus the CA fetch, the second call performs
no network calls and returns the identical credential; and whenever the
store already holds the three certificate files and a loadable sidecar,
`register_device` returns the cached credential with no network traffic. -/
theorem enroll_idempotent (env : IssuerEnv) (fs : CertDir)
    (d : RegistrationResponse) (ca : String)
    (hpost : env.postResp = some (200, d))
    (hca : env.caResp = (200, ca)) (hcane : ca ≠ "")
    (hfs : certificates_exist fs = false) :
    (register_device env fs).1 = Except.ok d
  ∧ (register_device env fs).2.2 = [Req.registerPost, Req.caGet]
  ∧ register_device env (register_device env fs).2.1
      = (Except.ok d, (register_device env fs).2.1, [])
  ∧ (∀ (fs2 : CertDir) (r : RegistrationResponse),
        certificates_exist fs2 = true → fs2.regFile = some r →
        register_device env fs2 = (Except.ok r, fs2, [])) := by
  have hrun := register_device_200_run env fs d ca hpost hca hfs
  have hf := save_certificates_fields d ca fs hcane
  have hcert : certificates_exist
      (save_registration_data d (save_certificates d ca fs)) = true := by
    simp [certificates_exist, save_registration_data, hf.1, hf.2.1, hf.2.2.1]
  have hreg : (save_registration_data d
      (save_certificates d ca fs)).regFile = some d := rfl
  refine ⟨?_, ?_, ?_, ?_⟩
  · rw [hrun]
  · rw [hrun]
  · rw [hrun]
    exact register_device_cached env _ d hcert hreg
  · exact fun fs2 r h1 h2 => register_device_cached env fs2 r h1 h2

/-- Claim C1 witness: the concrete 200 run from an empty directory. -/
theorem enroll_idempotent_witness :
    (register_device envRegOk emptyDir).1 = Except.ok regRespA
  ∧ (register_device envRegOk emptyDir).2.2 = [Req.registerPost, Req.caGet]
  ∧ register_device envRegOk (register_device envRegOk emptyDir).2.1
      = (Except.ok regRespA, (register_device envRegOk emptyDir).2.1, [])
  ∧ (∀ (fs2 : CertDir) (r : RegistrationResponse),
        certificates_exist fs2 = true → fs2.regFile = some r →
        register_device envRegOk fs2 = (Except.ok r, fs2, [])) :=
  enroll_idempotent envRegOk emptyDir regRespA "PEM-CA" rfl rfl (by decide) rfl

/-- Claim C7 counterexample: with no local cache, the enhanced client
answers a 409 by failing with `AlreadyRegisteredUnrecoverable` straight
away — the only request issued is the registration POST, and no
status/lookup request is ever made. -/
theorem enroll_409_without_lookup :
    register_device envConflict emptyDir
      = (Except.error EnrollError.alreadyRegisteredUnrecoverable, emptyDir,
         [Req.registerPost])
  ∧ Req.statusGet ∉ (register_device envConflict emptyDir).2.2 :=
  ⟨rfl, by decide⟩

/-- Claim C7 (amended): on HTTP 409 the enhanced client consults only the
local registration sidecar — with a loadable sidecar it returns that
record, with none it fails with `AlreadyRegisteredUnrecoverable`, and in
neither case does it issue a status lookup; the example client
(`example_device_client.py`) is the variant that issues the status/lookup
request on 409 — a 200 lookup record is returned without writing any
certificate files, and a failed lookup raises an error, never a silent
success. -/
theorem enroll_409_fallback (env : IssuerEnv) (fs : CertDir)
    (d : RegistrationResponse)
    (hpost : env.postResp = some (409, d))
    (hfs : certificates_exist fs = false) :
    (∀ r, fs.regFile = some r →
        register_device env fs = (Except.ok r, fs, [Req.registerPost]))
  ∧ (fs.regFile = none →
        register_device env fs
          = (Except.error EnrollError.alreadyRegisteredUnrecoverable, fs,
             [Req.registerPost]))
  ∧ Req.statusGet ∉ (register_device env fs).2.2
  ∧ (∀ (ex : ExIssuerEnv) (data record : List (String × String)),
        ex.postResp = some (409, data) → ex.statusResp = some (200, record) →
        ex_register_device ex
          = (Except.ok record, [], [Req.registerPost, Req.statusGet]))
  ∧ (∀ (ex : ExIssuerEnv) (data record : List (String × String)) (code : Nat),
        ex.postResp = some (409, data) → ex.statusResp = some (code, record) →
        code ≠ 200 →
        (∃ e, (ex_register_device ex).1 = Except.error e)
          ∧ (ex_register_device ex).2.1 = []) := by
  have hnet : register_device env fs = register_network env fs :=
    register_device_no_cache env fs hfs
  refine ⟨?_, ?_, ?_, ?_, ?_⟩
  · intro r hr
    rw [hnet, register_network_409 env fs d hpost, hr]
  · intro hr
    rw [hnet, register_network_409 env fs d hpost, hr]
  · rw [hnet, register_network_409 env fs d hpost]
    cases hr : fs.regFile <;> simp
  · intro ex data record hp hs
    unfold ex_register_device get_device_status
    rw [hp, hs]
    rfl
  · intro ex data record code hp hs hcode
    constructor
    · unfold ex_register_device get_device_status
      rw [hp, hs]
      by_cases h404 : code = 404
      · exact ⟨"Device not registered", by simp [h404]⟩
      · exact ⟨"Status check failed", by simp [h404, hcode]⟩
    · unfold ex_register_device
      rw [hp]
      rfl

/-- Claim C7 witness: a 409 with a cached sidecar and no certificate
files. -/
theorem enroll_409_fallback_witness :
    (∀ r, sidecarOnlyDir.regFile = some r →
        register_device envConflict sidecarOnlyDir
          = (Except.ok r, sidecarOnlyDir, [Req.registerPost]))
  ∧ (sidecarOnlyDir.regFile = none →
        register_device envConflict sidecarOnlyDir
          = (Except.error EnrollError.alreadyRegisteredUnrecoverable,
             sidecarOnlyDir, [Req.registerPost]))
  ∧ Req.statusGet ∉ (register_device envConflict sidecarOnlyDir).2.2
  ∧ (∀ (ex : ExIssuerEnv) (data record : List (String × String)),
        ex.postResp = some (409, data) → ex.statusResp = some (200, record) →
        ex_register_device ex
          = (Except.ok record, [], [Req.registerPost, Req.statusGet]))
  ∧ (∀ (ex : ExIssuerEnv) (data record : List (String × String)) (code : Nat),
        ex.postResp = some (409, data) → ex.statusResp = some (code, record) →
        code ≠ 200 →
        (∃ e, (ex_register_device ex).1 = Except.error e)
          ∧ (ex_register_device ex).2.1 = []) :=
  enroll_409_fallback envConflict sidecarOnlyDir regRespA rfl rfl

/-- Claim C8: when the issuer answers the registration POST with 200
carrying full credential fields (non-empty certificate/key PEMs, a
non-empty CA body) for the enrolled device id, the certificate directory
afterwards holds three non-empty PEM files plus a sidecar whose `deviceId`
matches the enrolled id. -/
theorem enroll_success_persists_credential (env : IssuerEnv) (fs : CertDir)
    (d : RegistrationResponse) (ca devId : String)
    (hpost : env.postResp = some (200, d))
    (hca : env.caResp = (200, ca)) (hcane : ca ≠ "")
    (hcert : d.certificate_pem ≠ "") (hkey : d.private_key_pem ≠ "")
    (hdev : d.deviceId = devId)
    (hfs : certificates_exist fs = false) :
    ∃ certPem keyPem caPem r,
      (register_device env fs).2.1.certFile = some certPem ∧ certPem ≠ ""
    ∧ (register_device env fs).2.1.keyFile = some keyPem ∧ keyPem ≠ ""
    ∧ (register_device env fs).2.1.caFile = some caPem ∧ caPem ≠ ""
    ∧ (register_device env fs).2.1.regFile = some r ∧ r.deviceId = devId := by
  have hrun := register_device_200_run env fs d ca hpost hca hfs
  have hf := save_certificates_fields d ca fs hcane
  refine ⟨d.certificate_pem, d.private_key_pem, ca, d,
    ?_, hcert, ?_, hkey, ?_, hcane, ?_, hdev⟩
  · rw [hrun]
    exact hf.1
  · rw [hrun]
    exact hf.2.1
  · rw [hrun]
    exact hf.2.2.1
  · rw [hrun]
    rfl

/-- Claim C8 witness: the concrete 200 run for device `printer-01`. -/
theorem enroll_success_persists_credential_witness :
    ∃ certPem keyPem caPem r,
      (register_device envRegOk emptyDir).2.1.certFile = some certPem
        ∧ certPem ≠ ""
    ∧ (register_device envRegOk emptyDir).2.1.keyFile = some keyPem
        ∧ keyPem ≠ ""
    ∧ (register_device envRegOk emptyDir).2.1.caFile = some caPem
        ∧ caPem ≠ ""
    ∧ (register_device envRegOk emptyDir).2.1.regFile = some r
        ∧ r.deviceId = "printer-01" :=
  enroll_success_persists_credential envRegOk emptyDir regRespA "PEM-CA"
    "printer-01" rfl rfl (by decide) (by decide) (by decide) rfl rfl

/-- Claim C9 counterexample: after a fresh 200 enrollment the persisted key
file mode is 0o600 = 384, whose owner-write bit (bit 7) is set — the owner
can write the private key file, so the written mode is not
owner-read-only. -/
theorem key_mode_not_read_only :
    (register_device envRegOk emptyDir).2.1.keyMode = some 384
  ∧ Nat.testBit 384 7 = true :=
  ⟨rfl, by decide⟩

/-- Claim C9 (amended): every enrollment that persists a new credential
chmods the private key file to exactly 0o600 — the owner may read and
write it and group/others hold no permission bits at all; read access is
restricted to the owner, but the file is not write-protected against its
owner. -/
theorem key_mode_owner_read_write (env : IssuerEnv) (fs : CertDir)
    (d : RegistrationResponse) (ca : String)
    (hpost : env.postResp = some (200, d))
    (hca : env.caResp = (200, ca))
    (hfs : certificates_exist fs = false) :
    (register_device env fs).2.1.keyMode = some 0o600
  ∧ Nat.testBit 0o600 8 = true
  ∧ Nat.testBit 0o600 7 = true
  ∧ (∀ i, i < 7 → Nat.testBit 0o600 i = false) := by
  refine ⟨?_, by decide, by decide, by decide⟩
  rw [register_device_200_run env fs d ca hpost hca hfs]
  exact save_certificates_keyMode d ca fs

/-- Claim C9 witness: the concrete 200 run. -/
theorem key_mode_owner_read_write_witness :
    (register_device envRegOk emptyDir).2.1.keyMode = some 0o600
  ∧ Nat.testBit 0o600 8 = true
  ∧ Nat.testBit 0o600 7 = true
  ∧ (∀ i, i < 7 → Nat.testBit 0o600 i = false) :=
  key_mode_owner_read_write envRegOk emptyDir regRespA "PEM-CA" rfl rfl rfl

end Makerspace
